import Mathlib

/- Verification development for the go-otp-auth-service core: a shallow
embedding of the OTP authentication flow (code generation, rate limiting,
credential storage and consumption, user resolution, JWT round-trip),
translated from the Go source, with theorems settling the specification
claims against it. Time is modelled in seconds as a natural number. -/

namespace OTPAuth

/-! ### Data model (internal/model/otp.go) -/

/-- model.OTP: a one-time-password record (the unused ID and CreatedAt
fields are omitted; ExpiresAt is a Unix-second instant). -/
structure OTP where
  phoneNumber : String
  otpCode : String
  expiresAt : Nat
deriving DecidableEq, Repr

/-- OTP.IsExpired: `time.Now().After(o.ExpiresAt)` — strictly after. -/
def OTP.isExpired (o : OTP) (now : Nat) : Bool := decide (o.expiresAt < now)

/-! ### In-memory OTP store (internal/database, InMemoryOTPStore)

The Go store is a map keyed by phone number, each method holding the
store mutex; it is modelled as an association list, each method as one
atomic function. -/

/-- InMemoryOTPStore.GetOTP: map lookup; `none` models ErrNotFound. -/
def getOTP (otps : List (String × OTP)) (phoneNumber : String) : Option OTP :=
  otps.lookup phoneNumber

/-- InMemoryOTPStore.DeleteOTP: `delete(s.otps, phoneNumber)`; never fails. -/
def deleteOTP (otps : List (String × OTP)) (phoneNumber : String) :
    List (String × OTP) :=
  otps.filter (fun e => e.1 != phoneNumber)

/-- InMemoryOTPStore.StoreOTP: `s.otps[otp.PhoneNumber] = otp` (map
assignment replaces any existing entry); never fails. -/
def storeOTP (otps : List (String × OTP)) (o : OTP) : List (String × OTP) :=
  (o.phoneNumber, o) :: deleteOTP otps o.phoneNumber

/-! ### Rate limiters -/

/-- middleware.InMemoryRateLimiter.Allow: purge instants older than the
window, reject without recording when the surviving count reaches maxReq
(writing back the purged list), otherwise append the current instant.
Returns the decision and the new timestamp list for the key. -/
def rateLimiterAllow (maxReq window : Nat) (requests : List Nat) (now : Nat) :
    Bool × List Nat :=
  let recentRequests := requests.filter (fun t => now - t ≤ window)
  if maxReq ≤ recentRequests.length then
    (false, recentRequests)
  else
    (true, recentRequests ++ [now])

/-- database.InMemoryRateLimiter.Allow: same admission rule with the
constants 3 requests per 10 minutes, but on rejection the stored list is
left unchanged rather than replaced by the purged one. -/
def dbRateLimiterAllow (requests : List Nat) (now : Nat) : Bool × List Nat :=
  let recentRequests := requests.filter (fun t => now - t ≤ 600)
  if 3 ≤ recentRequests.length then
    (false, requests)
  else
    (true, recentRequests ++ [now])

/-! ### Code generator (pkg/otp/generator.go) -/

/-- fmt.Sprintf "%06d": the decimal digits of n, left-padded with zeros
to a minimum width of 6. -/
def sprintf06 (n : Nat) : String :=
  ⟨List.replicate (6 - (Nat.digits 10 n).length) '0' ++
    ((Nat.digits 10 n).reverse.map Nat.digitChar)⟩

/-- The packing `int(b[0])<<16 | int(b[1])<<8 | int(b[2])` from
SimpleOTPGenerator.GenerateOTP. -/
def otpCombined (b0 b1 b2 : Nat) : Nat := ((b0 <<< 16) ||| (b1 <<< 8)) ||| b2

/-- SimpleOTPGenerator.GenerateOTP: `entropy` is the result of reading
3 bytes from crypto/rand (`none` models a read failure, on which the Go
code returns the fixed fallback "000000"). -/
def generateOTP (entropy : Option (Nat × Nat × Nat)) : String :=
  match entropy with
  | none => "000000"
  | some (b0, b1, b2) => sprintf06 (otpCombined b0 b1 b2 % 1000000)

/-- Number of 3-byte inputs that GenerateOTP maps to the code value v. -/
def countPreimages (v : Nat) : Nat :=
  (((Finset.range 256 ×ˢ Finset.range 256) ×ˢ Finset.range 256).filter
    (fun t => otpCombined t.1.1 t.1.2 t.2 % 1000000 = v)).card

/-! ### Users and the authentication orchestrator (pkg/auth/service.go) -/

/-- model.User (CreatedAt/UpdatedAt omitted; the UUID is an opaque string). -/
structure User where
  id : String
  phoneNumber : String
deriving DecidableEq, Repr

/-- Outcome of authRepository.GetUserByPhoneNumber: ErrUserNotFound
(translated from the store's ErrNotFound) or another database error. -/
inductive UserLookupErr
  | userNotFound
  | dbErr (msg : String)
deriving DecidableEq, Repr

/-- The error taxonomy surfaced by authService. -/
inductive AuthErr
  | invalidOTP
  | userRegistration
  | jwtGeneration
  | dbErr (msg : String)
deriving DecidableEq, Repr

/-- Steps 3–4 of authService.VerifyOTPAndAuthenticate: find-or-create
the user (any create failure is surfaced as ErrUserRegistration, with no
re-read), then generate the JWT. Touches no OTP-store state. -/
def resolveUserAndSign (getUserRes : Except UserLookupErr User)
    (createUserRes : Except String User)
    (signRes : User → Except String String) : Except AuthErr String :=
  match getUserRes with
  | Except.ok user =>
    match signRes user with
    | Except.ok token => Except.ok token
    | Except.error _ => Except.error AuthErr.jwtGeneration
  | Except.error UserLookupErr.userNotFound =>
    match createUserRes with
    | Except.ok user =>
      match signRes user with
      | Except.ok token => Except.ok token
      | Except.error _ => Except.error AuthErr.jwtGeneration
    | Except.error _ => Except.error AuthErr.userRegistration
  | Except.error (UserLookupErr.dbErr m) => Except.error (AuthErr.dbErr m)

/-- authService.VerifyOTPAndAuthenticate. The OTP store is concrete
state; the user-store and signing calls are passed as their results
(`getUserRes`, `createUserRes`, `signRes`), which lets one instantiate
outcomes that only arise from concurrent interference (for example a
create that fails with AlreadyExists after a NotFound lookup).
Returns the call result together with the OTP store after the call. -/
def verifyOTPAndAuthenticate (otps : List (String × OTP)) (now : Nat)
    (phoneNumber receivedOTP : String)
    (getUserRes : Except UserLookupErr User)
    (createUserRes : Except String User)
    (signRes : User → Except String String) :
    Except AuthErr String × List (String × OTP) :=
  match getOTP otps phoneNumber with
  | none => (Except.error AuthErr.invalidOTP, otps)
  | some storedOTP =>
    if storedOTP.otpCode != receivedOTP || storedOTP.isExpired now then
      (Except.error AuthErr.invalidOTP, otps)
    else
      -- OTP is valid; it is deleted before the user is resolved
      -- (the delete error is ignored by the Go code).
      (resolveUserAndSign getUserRes createUserRes signRes,
        deleteOTP otps phoneNumber)

/-- authService.SendOTP error taxonomy (ErrRateLimitExceeded; the
in-memory StoreOTP cannot fail). -/
inductive SendErr
  | rateLimitExceeded
deriving DecidableEq, Repr

/-- authService.SendOTP: check the rate limit via the shared limiter,
generate a code, store it with a 2-minute expiry. Returns the result,
the limiter state for the phone number, and the OTP store. -/
def sendOTP (maxReq window : Nat) (limiter : List Nat)
    (otps : List (String × OTP)) (now : Nat) (phoneNumber : String)
    (entropy : Option (Nat × Nat × Nat)) :
    Except SendErr Unit × List Nat × List (String × OTP) :=
  match rateLimiterAllow maxReq window limiter now with
  | (false, limiter1) => (Except.error SendErr.rateLimitExceeded, limiter1, otps)
  | (true, limiter1) =>
    let otpCode := generateOTP entropy
    let expiresAt := now + 2 * 60
    (Except.ok (), limiter1, storeOTP otps ⟨phoneNumber, otpCode, expiresAt⟩)

/-- Outcome of one wired POST /otp/send request. -/
inductive SendOutcome
  | sent
  | middlewareLimited
  | serviceLimited
deriving DecidableEq, Repr

/-- The wired /otp/send path from main.go and api routes: the
OTPRateLimiter middleware consults the limiter, and on admission the
handler calls authService.SendOTP, which consults the very same
InMemoryRateLimiter(3, 2 minutes) instance again via AllowOTPRate. -/
def handleSendRequest (window : Nat) (limiter : List Nat)
    (otps : List (String × OTP)) (now : Nat) (phoneNumber : String)
    (entropy : Option (Nat × Nat × Nat)) :
    SendOutcome × List Nat × List (String × OTP) :=
  match rateLimiterAllow 3 window limiter now with
  | (false, limiter1) => (SendOutcome.middlewareLimited, limiter1, otps)
  | (true, limiter1) =>
    match sendOTP 3 window limiter1 otps now phoneNumber entropy with
    | (Except.error _, limiter2, otps2) =>
      (SendOutcome.serviceLimited, limiter2, otps2)
    | (Except.ok _, limiter2, otps2) => (SendOutcome.sent, limiter2, otps2)

/-! ### Token issuer and verifier (generateJWT / middleware.AuthMiddleware)

HMAC is modelled symbolically: a signature is the signed content
together with the key, and verification recomputes and compares it. -/

/-- Signing algorithms: HS256 (jwt.SigningMethodHS256) and a non-HMAC
method, which the middleware keyfunc must reject. -/
inductive JWTAlg
  | hs256
  | rs256
deriving DecidableEq, Repr

/-- The keyfunc check `token.Method.(*jwt.SigningMethodHMAC)`. -/
def JWTAlg.isHMAC : JWTAlg → Bool
  | hs256 => true
  | rs256 => false

/-- The claims set built by authService.generateJWT. -/
structure JWTClaims where
  sub : String
  phone : String
  iat : Nat
  exp : Nat
deriving DecidableEq, Repr

/-- A signed token; `sig` is the symbolic MAC over (alg, claims, key). -/
structure JWTToken where
  alg : JWTAlg
  claims : JWTClaims
  sig : JWTAlg × JWTClaims × String
deriving DecidableEq, Repr

/-- token.SignedString(secret). -/
def signedString (alg : JWTAlg) (claims : JWTClaims) (jwtSecret : String) :
    JWTToken :=
  ⟨alg, claims, (alg, claims, jwtSecret)⟩

/-- authService.generateJWT: claims sub = user id, phone = identity,
iat = now, exp = now + 24 hours, signed HS256 with the service secret. -/
def generateJWT (userID phoneNumber : String) (now : Nat)
    (jwtSecret : String) : JWTToken :=
  signedString JWTAlg.hs256 ⟨userID, phoneNumber, now, now + 24 * 60 * 60⟩
    jwtSecret

/-- middleware.AuthMiddleware token validation: reject non-HMAC signing
methods, check the signature against the server secret, reject expired
tokens (golang-jwt v5 requires now before exp), then yield the sub and
phone claims. -/
def authMiddlewareParse (tok : JWTToken) (jwtSecret : String) (now : Nat) :
    Option (String × String) :=
  if tok.alg.isHMAC = false then none
  else if tok.sig ≠ (tok.alg, tok.claims, jwtSecret) then none
  else if tok.claims.exp ≤ now then none
  else some (tok.claims.sub, tok.claims.phone)

/-! ### Interleaved semantics of two concurrent VerifyCode calls

Each InMemory store method holds the store mutex for the duration of
one call, so a concurrent execution is an interleaving of atomic store
calls. A verifying thread performs, in order: GetOTP (plus the local
code/expiry check on the returned snapshot), DeleteOTP, then
GetUserByPhoneNumber, possibly CreateUser, and finally generateJWT
(which touches no shared state and always succeeds here). -/

/-- In-memory user store state: phone-number index plus a fresh-id
counter standing in for uuid.New(). -/
structure UserStoreState where
  users : List (String × User)
  nextId : Nat
deriving DecidableEq, Repr

/-- InMemoryUserStore.GetUserByPhoneNumber. -/
def getUserByPhoneNumber (s : UserStoreState) (phoneNumber : String) :
    Option User :=
  s.users.lookup phoneNumber

/-- InMemoryUserStore.CreateUser: AlreadyExists when the phone number is
taken, otherwise insert with a fresh id (all under one lock). -/
def createUser (s : UserStoreState) (phoneNumber : String) :
    Except String (User × UserStoreState) :=
  match s.users.lookup phoneNumber with
  | some _ => Except.error "already exists"
  | none =>
    let u : User := ⟨"user-" ++ toString s.nextId, phoneNumber⟩
    Except.ok (u, ⟨(phoneNumber, u) :: s.users, s.nextId + 1⟩)

/-- The validation performed on the GetOTP result:
`err != nil || storedOTP.OTPCode != receivedOTP || storedOTP.IsExpired()`. -/
def otpCheckPasses (otps : List (String × OTP)) (now : Nat)
    (phoneNumber receivedOTP : String) : Bool :=
  match getOTP otps phoneNumber with
  | none => false
  | some storedOTP =>
    !(storedOTP.otpCode != receivedOTP || storedOTP.isExpired now)

/-- Control point of one in-flight VerifyOTPAndAuthenticate call. -/
inductive VerifyPhase
  | start
  | validated (passed : Bool)
  | consumed
  | lookedUp (found : Option User)
  | resolved (u : User)
  | doneToken (u : User)
  | doneInvalid
  | doneRegErr
deriving DecidableEq, Repr

/-- One atomic step of a verifying thread against the shared stores. -/
def verifyStep (now : Nat) (phoneNumber receivedOTP : String)
    (otps : List (String × OTP)) (us : UserStoreState) (ph : VerifyPhase) :
    List (String × OTP) × UserStoreState × VerifyPhase :=
  match ph with
  | VerifyPhase.start =>
    (otps, us,
      VerifyPhase.validated (otpCheckPasses otps now phoneNumber receivedOTP))
  | VerifyPhase.validated false => (otps, us, VerifyPhase.doneInvalid)
  | VerifyPhase.validated true =>
    (deleteOTP otps phoneNumber, us, VerifyPhase.consumed)
  | VerifyPhase.consumed =>
    (otps, us, VerifyPhase.lookedUp (getUserByPhoneNumber us phoneNumber))
  | VerifyPhase.lookedUp (some u) => (otps, us, VerifyPhase.resolved u)
  | VerifyPhase.lookedUp none =>
    match createUser us phoneNumber with
    | Except.ok (u, us1) => (otps, us1, VerifyPhase.resolved u)
    | Except.error _ => (otps, us, VerifyPhase.doneRegErr)
  | VerifyPhase.resolved u => (otps, us, VerifyPhase.doneToken u)
  | ph => (otps, us, ph)

/-- Shared stores plus the two thread control points. -/
structure ConcState where
  otps : List (String × OTP)
  users : UserStoreState
  t1 : VerifyPhase
  t2 : VerifyPhase
deriving DecidableEq, Repr

/-- Run one step of thread 1 (`true`) or thread 2 (`false`). -/
def schedStep (now : Nat) (phoneNumber receivedOTP : String)
    (s : ConcState) (which : Bool) : ConcState :=
  if which then
    match verifyStep now phoneNumber receivedOTP s.otps s.users s.t1 with
    | (otps1, us1, ph1) => ⟨otps1, us1, ph1, s.t2⟩
  else
    match verifyStep now phoneNumber receivedOTP s.otps s.users s.t2 with
    | (otps1, us1, ph1) => ⟨otps1, us1, s.t1, ph1⟩

/-- Execute a schedule (a list of thread choices). -/
def runSched (now : Nat) (phoneNumber receivedOTP : String)
    (s0 : ConcState) (sched : List Bool) : ConcState :=
  sched.foldl (schedStep now phoneNumber receivedOTP) s0

/-! ### Store lemmas -/

/-- After DeleteOTP, GetOTP for that phone number reports NotFound. -/
lemma getOTP_deleteOTP (otps : List (String × OTP)) (p : String) :
    getOTP (deleteOTP otps p) p = none := by
  induction otps with
  | nil => rfl
  | cons e rest ih =>
    obtain ⟨k, v⟩ := e
    by_cases h : k = p
    · have hb : ((k, v).1 != p) = false := by simp [h]
      simpa [deleteOTP, getOTP, List.filter_cons, hb] using ih
    · have hb : ((k, v).1 != p) = true := by simp [h]
      have hk : (p == k) = false := by
        simp only [beq_eq_false_iff_ne, ne_eq]
        exact fun hh => h hh.symm
      simpa [deleteOTP, getOTP, List.filter_cons, hb, List.lookup_cons, hk]
        using ih

/-- Once the OTP check passes, the resulting OTP-store state is the
deleted one, whatever the user-resolution and signing calls return. -/
lemma verify_state_after_pass {otps : List (String × OTP)} {now : Nat}
    {p c : String} {o : OTP}
    (gR : Except UserLookupErr User) (cR : Except String User)
    (sR : User → Except String String)
    (hget : getOTP otps p = some o)
    (hcheck : (o.otpCode != c || o.isExpired now) = false) :
    (verifyOTPAndAuthenticate otps now p c gR cR sR).2 = deleteOTP otps p := by
  unfold verifyOTPAndAuthenticate
  rw [hget]
  simp only [hcheck, Bool.false_eq_true, if_false]

/-- A successful VerifyOTPAndAuthenticate leaves the store with the
credential for that phone number deleted. -/
lemma verify_ok_inv {otps otps1 : List (String × OTP)} {now : Nat}
    {p c tok : String} {gR : Except UserLookupErr User}
    {cR : Except String User} {sR : User → Except String String}
    (h : verifyOTPAndAuthenticate otps now p c gR cR sR
      = (Except.ok tok, otps1)) :
    otps1 = deleteOTP otps p := by
  unfold verifyOTPAndAuthenticate at h
  rcases hget : getOTP otps p with _ | o <;> rw [hget] at h
  · simp at h
  · by_cases hc : (o.otpCode != c || o.isExpired now) = true
    · simp [hc] at h
    · rw [Bool.not_eq_true] at hc
      simp only [hc, Bool.false_eq_true, if_false, Prod.mk.injEq] at h
      exact h.2.symm

/-! ### Claim C2 -/

/-- C2: in a sequential execution a code authenticates exactly once.
After a VerifyCode(identity, code) that returned a token, a subsequent
VerifyCode with the same identity and the same code fails with
InvalidCredential (the successful call removed the stored credential),
whatever the user store and signer do on the second call. -/
theorem C2_code_verifies_exactly_once
    (otps otps1 : List (String × OTP)) (now now2 : Nat) (p c tok : String)
    (gR gR2 : Except UserLookupErr User) (cR cR2 : Except String User)
    (sR sR2 : User → Except String String)
    (h : verifyOTPAndAuthenticate otps now p c gR cR sR
      = (Except.ok tok, otps1)) :
    verifyOTPAndAuthenticate otps1 now2 p c gR2 cR2 sR2
      = (Except.error AuthErr.invalidOTP, otps1) := by
  have hst : otps1 = deleteOTP otps p := verify_ok_inv h
  subst hst
  unfold verifyOTPAndAuthenticate
  rw [getOTP_deleteOTP]

/-- C2 witness: a concrete successful verification followed by a
failing re-verification of the same code. -/
theorem C2_witness :
    verifyOTPAndAuthenticate [] 61 "+15551234567" "482913"
        (Except.error UserLookupErr.userNotFound) (Except.error "x")
        (fun _ => Except.ok "t2")
      = (Except.error AuthErr.invalidOTP, []) :=
  C2_code_verifies_exactly_once
    [("+15551234567", ⟨"+15551234567", "482913", 120⟩)] [] 60 61
    "+15551234567" "482913" "tok"
    (Except.ok ⟨"u1", "+15551234567"⟩) (Except.error UserLookupErr.userNotFound)
    (Except.error "x") (Except.error "x")
    (fun _ => Except.ok "tok") (fun _ => Except.ok "t2") (by rfl)

/-! ### Claim C6 -/

/-- C6 counterexample: with the account lookup reporting NotFound and
Create failing with AlreadyExists (a concurrent creation won the race),
the orchestrator does not re-read and mint a token: it surfaces
ErrUserRegistration to the caller. -/
theorem C6_counterexample :
    verifyOTPAndAuthenticate
        [("+15551234567", ⟨"+15551234567", "482913", 120⟩)] 60
        "+15551234567" "482913" (Except.error UserLookupErr.userNotFound)
        (Except.error "already exists: user with phone number +15551234567")
        (fun u => Except.ok ("token-for-" ++ u.id))
      = (Except.error AuthErr.userRegistration, []) := by rfl

/-- C6 amended: when the lookup reports NotFound and the subsequent
Create fails (for example with AlreadyExists after losing a creation
race), VerifyOTPAndAuthenticate returns ErrUserRegistration — the create
failure is surfaced, with no re-read and no token, though the OTP has
already been consumed. -/
theorem C6_create_race_surfaces_user_registration_error
    (otps : List (String × OTP)) (now : Nat) (p c msg : String) (o : OTP)
    (sR : User → Except String String)
    (hget : getOTP otps p = some o)
    (hcheck : (o.otpCode != c || o.isExpired now) = false) :
    verifyOTPAndAuthenticate otps now p c
        (Except.error UserLookupErr.userNotFound) (Except.error msg) sR
      = (Except.error AuthErr.userRegistration, deleteOTP otps p) := by
  unfold verifyOTPAndAuthenticate
  rw [hget]
  simp only [hcheck, Bool.false_eq_true, if_false]
  rfl

/-- C6 amended witness. -/
theorem C6_amended_witness :
    verifyOTPAndAuthenticate
        [("+15551234567", ⟨"+15551234567", "482913", 120⟩)] 60
        "+15551234567" "482913" (Except.error UserLookupErr.userNotFound)
        (Except.error "already exists") (fun _ => Except.ok "tok")
      = (Except.error AuthErr.userRegistration, []) :=
  C6_create_race_surfaces_user_registration_error
    [("+15551234567", ⟨"+15551234567", "482913", 120⟩)] 60
    "+15551234567" "482913" "already exists"
    ⟨"+15551234567", "482913", 120⟩ (fun _ => Except.ok "tok")
    (by rfl) (by rfl)

/-! ### Claim C7 -/

/-- C7 counterexample: at the exact boundary instant now = expiresAt the
stored credential still authenticates (IsExpired uses strict After), so
VerifyCode returns a token rather than InvalidCredential. -/
theorem C7_counterexample :
    verifyOTPAndAuthenticate [("+15551234567", ⟨"+15551234567", "482913", 120⟩)]
        120 "+15551234567" "482913" (Except.ok ⟨"u1", "+15551234567"⟩)
        (Except.error "x") (fun _ => Except.ok "tok")
      = (Except.ok "tok", []) := by rfl

/-- C7 amended: a stored credential behaves like an absent one exactly
when now > expiresAt (strictly): VerifyCode then fails with
InvalidCredential and leaves the store unchanged, so the record may
still be physically present. At now = expiresAt it still authenticates. -/
theorem C7_expired_behaves_as_absent
    (otps : List (String × OTP)) (now : Nat) (p c : String) (o : OTP)
    (gR : Except UserLookupErr User) (cR : Except String User)
    (sR : User → Except String String)
    (hget : getOTP otps p = some o) (hexp : o.expiresAt < now) :
    verifyOTPAndAuthenticate otps now p c gR cR sR
      = (Except.error AuthErr.invalidOTP, otps) := by
  unfold verifyOTPAndAuthenticate
  rw [hget]
  have hx : o.isExpired now = true := by
    simp [OTP.isExpired, hexp]
  simp [hx]

/-- C7 amended witness: one second past expiry the same credential is
rejected while still stored. -/
theorem C7_amended_witness :
    verifyOTPAndAuthenticate [("+15551234567", ⟨"+15551234567", "482913", 120⟩)]
        121 "+15551234567" "482913" (Except.ok ⟨"u1", "+15551234567"⟩)
        (Except.error "x") (fun _ => Except.ok "tok")
      = (Except.error AuthErr.invalidOTP,
          [("+15551234567", ⟨"+15551234567", "482913", 120⟩)]) :=
  C7_expired_behaves_as_absent
    [("+15551234567", ⟨"+15551234567", "482913", 120⟩)] 121
    "+15551234567" "482913" ⟨"+15551234567", "482913", 120⟩
    (Except.ok ⟨"u1", "+15551234567"⟩) (Except.error "x")
    (fun _ => Except.ok "tok") (by rfl) (by decide)

/-! ### Claim C10 -/

/-- C10: whenever the OTP check passes, the credential is deleted before
the account is resolved, so for every outcome of the user-resolution and
signing calls — including the failing ones — the store afterwards holds
no OTP for that identity. -/
theorem C10_otp_consumed_even_when_call_fails
    (otps : List (String × OTP)) (now : Nat) (p c : String) (o : OTP)
    (gR : Except UserLookupErr User) (cR : Except String User)
    (sR : User → Except String String)
    (hget : getOTP otps p = some o)
    (hcheck : (o.otpCode != c || o.isExpired now) = false) :
    (verifyOTPAndAuthenticate otps now p c gR cR sR).2 = deleteOTP otps p ∧
    getOTP (verifyOTPAndAuthenticate otps now p c gR cR sR).2 p = none := by
  have h2 := verify_state_after_pass gR cR sR hget hcheck
  exact ⟨h2, by rw [h2]; exact getOTP_deleteOTP _ _⟩

/-- C10 witness: the user-creation failure path still consumes the OTP. -/
theorem C10_witness :
    (verifyOTPAndAuthenticate
        [("+15551234567", ⟨"+15551234567", "482913", 120⟩)] 60
        "+15551234567" "482913" (Except.error UserLookupErr.userNotFound)
        (Except.error "boom") (fun _ => Except.ok "tok")).2 = [] ∧
    getOTP (verifyOTPAndAuthenticate
        [("+15551234567", ⟨"+15551234567", "482913", 120⟩)] 60
        "+15551234567" "482913" (Except.error UserLookupErr.userNotFound)
        (Except.error "boom") (fun _ => Except.ok "tok")).2
      "+15551234567" = none :=
  C10_otp_consumed_even_when_call_fails
    [("+15551234567", ⟨"+15551234567", "482913", 120⟩)] 60
    "+15551234567" "482913" ⟨"+15551234567", "482913", 120⟩
    (Except.error UserLookupErr.userNotFound) (Except.error "boom")
    (fun _ => Except.ok "tok") (by rfl) (by rfl)

/-! ### Claim C1 -/

/-- C1: GetOTP and DeleteOTP take the store lock separately, so the
fetch-and-invalidate is not one atomic step. Under the interleaving in
which both threads run GetOTP before either runs DeleteOTP, two
concurrent VerifyCode calls for the same identity, both submitting the
stored unexpired code, BOTH finish having returned a session token —
contradicting the claimed exactly-one-succeeds guarantee. -/
theorem C1_concurrent_verifies_can_both_return_tokens :
    (runSched 60 "+15551234567" "482913"
        ⟨[("+15551234567", ⟨"+15551234567", "482913", 120⟩)], ⟨[], 0⟩,
          VerifyPhase.start, VerifyPhase.start⟩
        [true, false, true, false, true, true, true, false, false, false]).t1
      = VerifyPhase.doneToken ⟨"user-0", "+15551234567"⟩ ∧
    (runSched 60 "+15551234567" "482913"
        ⟨[("+15551234567", ⟨"+15551234567", "482913", 120⟩)], ⟨[], 0⟩,
          VerifyPhase.start, VerifyPhase.start⟩
        [true, false, true, false, true, true, true, false, false, false]).t2
      = VerifyPhase.doneToken ⟨"user-0", "+15551234567"⟩ := by
  exact ⟨rfl, rfl⟩

/-! ### Claim C3 -/

/-- C3: middleware.InMemoryRateLimiter.Allow with the configured maximum
of 3: starting from an empty window, three calls at instants a ≤ b ≤ c
within the window are admitted and recorded; a fourth call at d with
d - a ≤ W is rejected, and the rejected attempt d is not recorded (the
stored list stays [a, b, c]); a later call at e whose distance from the
oldest recorded instant a exceeds W is admitted again. -/
theorem C3_sliding_window_admission
    (W a b c d e : Nat) (hab : a ≤ b) (hbc : b ≤ c) (hcd : c ≤ d)
    (hda : d - a ≤ W) (hea : W < e - a) :
    rateLimiterAllow 3 W [] a = (true, [a]) ∧
    rateLimiterAllow 3 W [a] b = (true, [a, b]) ∧
    rateLimiterAllow 3 W [a, b] c = (true, [a, b, c]) ∧
    rateLimiterAllow 3 W [a, b, c] d = (false, [a, b, c]) ∧
    (rateLimiterAllow 3 W [a, b, c] e).1 = true := by
  refine ⟨rfl, ?_, ?_, ?_, ?_⟩
  · simp [rateLimiterAllow, List.filter_cons, show b ≤ W + a by omega]
  · simp [rateLimiterAllow, List.filter_cons, show c ≤ W + a by omega,
      show c ≤ W + b by omega]
  · simp [rateLimiterAllow, List.filter_cons, show d ≤ W + a by omega,
      show d ≤ W + b by omega, show d ≤ W + c by omega]
  · by_cases hb2 : e ≤ W + b <;> by_cases hc2 : e ≤ W + c <;>
      simp [rateLimiterAllow, List.filter_cons,
        show ¬(e ≤ W + a) by omega, hb2, hc2]

/-- C3 witness: window 120 s, max 3, calls at 0, 10, 20, then a rejected
fourth at 30, then an admitted call at 131. -/
theorem C3_witness :
    rateLimiterAllow 3 120 [] 0 = (true, [0]) ∧
    rateLimiterAllow 3 120 [0] 10 = (true, [0, 10]) ∧
    rateLimiterAllow 3 120 [0, 10] 20 = (true, [0, 10, 20]) ∧
    rateLimiterAllow 3 120 [0, 10, 20] 30 = (false, [0, 10, 20]) ∧
    (rateLimiterAllow 3 120 [0, 10, 20] 131).1 = true :=
  C3_sliding_window_admission 120 0 10 20 30 131 (by decide) (by decide)
    (by decide) (by decide) (by decide)

/-! ### Claim C4 -/

/-- C4: on the wired /otp/send path the shared limiter is consulted by
the OTPRateLimiter middleware and again inside SendOTP, so the first
admitted request records two timestamps; with the configured maximum of
3 per window, a second request within the window already fails as
rate-limited (at the service-level check). -/
theorem C4_double_counting_limits_second_send
    (W t1 t2 : Nat) (p : String) (e1 e2 : Option (Nat × Nat × Nat))
    (h : t2 - t1 ≤ W) :
    handleSendRequest W [] [] t1 p e1
      = (SendOutcome.sent, [t1, t1],
          storeOTP [] ⟨p, generateOTP e1, t1 + 2 * 60⟩) ∧
    (handleSendRequest W [t1, t1]
        ((handleSendRequest W [] [] t1 p e1).2.2) t2 p e2).1
      = SendOutcome.serviceLimited := by
  have h11 : t1 ≤ W + t1 := by omega
  have h21 : t2 ≤ W + t1 := by omega
  have h22 : t2 ≤ W + t2 := by omega
  constructor
  · simp [handleSendRequest, sendOTP, rateLimiterAllow, List.filter_cons, h11]
  · simp [handleSendRequest, sendOTP, rateLimiterAllow, List.filter_cons,
      h11, h21, h22]

/-- C4 witness: window 120 s; requests at 0 and 10 for one phone number. -/
theorem C4_witness :
    handleSendRequest 120 [] [] 0 "+15551234567" none
      = (SendOutcome.sent, [0, 0],
          storeOTP [] ⟨"+15551234567", generateOTP none, 0 + 2 * 60⟩) ∧
    (handleSendRequest 120 [0, 0]
        ((handleSendRequest 120 [] [] 0 "+15551234567" none).2.2) 10
        "+15551234567" none).1
      = SendOutcome.serviceLimited :=
  C4_double_counting_limits_second_send 120 0 10 "+15551234567" none none
    (by decide)

/-! ### Claim C5 -/

/-- C5: when the entropy source fails, GenerateOTP returns the fixed
predictable code "000000" and SendOTP nevertheless succeeds, storing
that code — the request does not fail as the claim requires. -/
theorem C5_entropy_failure_degrades_to_fixed_code :
    generateOTP none = "000000" ∧
    sendOTP 3 120 [] [] 0 "+15551234567" none
      = (Except.ok (), [0],
          [("+15551234567", ⟨"+15551234567", "000000", 120⟩)]) :=
  ⟨rfl, rfl⟩

/-! ### Claim C9 -/

/-- C9: token round-trip. A token minted by generateJWT and verified
with the same secret before its 24-hour expiry is accepted and yields
back exactly the account id ("sub") and identity ("phone"); once the
expiry has passed it is rejected; and any token whose signing method is
not HMAC is rejected regardless of its content. -/
theorem C9_jwt_round_trip (userID phoneNumber jwtSecret : String)
    (now t : Nat) :
    (t < now + 24 * 60 * 60 →
      authMiddlewareParse (generateJWT userID phoneNumber now jwtSecret)
          jwtSecret t
        = some (userID, phoneNumber)) ∧
    (now + 24 * 60 * 60 ≤ t →
      authMiddlewareParse (generateJWT userID phoneNumber now jwtSecret)
          jwtSecret t
        = none) ∧
    (∀ tok : JWTToken, tok.alg.isHMAC = false →
      authMiddlewareParse tok jwtSecret t = none) := by
  refine ⟨?_, ?_, ?_⟩
  · intro h
    simp [authMiddlewareParse, generateJWT, signedString, JWTAlg.isHMAC,
      show ¬(now + 24 * 60 * 60 ≤ t) by omega]
  · intro h
    simp [authMiddlewareParse, generateJWT, signedString, JWTAlg.isHMAC, h]
  · intro tok h
    simp [authMiddlewareParse, h]

/-- C9 witness: a concrete mint at time 0 verifies at 3600 s and is
rejected at 86400 s. -/
theorem C9_witness :
    authMiddlewareParse (generateJWT "u1" "+15551234567" 0 "secret")
        "secret" 3600
      = some ("u1", "+15551234567") ∧
    authMiddlewareParse (generateJWT "u1" "+15551234567" 0 "secret")
        "secret" 86400
      = none :=
  ⟨(C9_jwt_round_trip "u1" "+15551234567" "secret" 0 3600).1 (by decide),
    (C9_jwt_round_trip "u1" "+15551234567" "secret" 0 86400).2.1 (by decide)⟩

/-! ### Claim C8: generator output shape and distribution -/

/-- Bitwise-or of a left shift with a value below the shift width is
plain addition. -/
lemma lor_shiftLeft_eq_add (a : Nat) {b k : Nat} (hb : b < 2 ^ k) :
    a <<< k ||| b = a * 2 ^ k + b := by
  apply Nat.eq_of_testBit_eq
  intro i
  rw [Nat.testBit_lor, Nat.testBit_shiftLeft]
  have h := Nat.testBit_mul_pow_two_add a hb i
  rw [Nat.mul_comm] at h
  rw [h]
  by_cases hik : i < k
  · simp [hik, show ¬(i ≥ k) by omega]
  · have hbi : b < 2 ^ i :=
      lt_of_lt_of_le hb (Nat.pow_le_pow_right (by norm_num) (by omega))
    simp [hik, show i ≥ k by omega, Nat.testBit_lt_two_pow hbi]

/-- The Go packing `b0<<16 | b1<<8 | b2` equals base-256 positional
combination when the two lower bytes are in range. -/
lemma otpCombined_eq (b0 : Nat) {b1 b2 : Nat} (h1 : b1 < 256)
    (h2 : b2 < 256) : otpCombined b0 b1 b2 = b0 * 65536 + b1 * 256 + b2 := by
  have e1 : b1 <<< 8 = b1 * 256 := by rw [Nat.shiftLeft_eq]
  have h1s : b1 <<< 8 < 2 ^ 16 := by rw [e1]; omega
  have step1 : (b0 <<< 16) ||| (b1 <<< 8) = b0 * 65536 + b1 * 256 := by
    rw [lor_shiftLeft_eq_add b0 h1s, e1]
    norm_num
  have step2 : b0 * 65536 + b1 * 256 = (b0 * 256 + b1) <<< 8 := by
    rw [Nat.shiftLeft_eq]
    ring
  have step3 : ((b0 * 256 + b1) <<< 8) ||| b2 = (b0 * 256 + b1) * 256 + b2 := by
    rw [lor_shiftLeft_eq_add (b0 * 256 + b1) (show b2 < 2 ^ 8 by omega)]
    norm_num
  unfold otpCombined
  calc ((b0 <<< 16) ||| (b1 <<< 8)) ||| b2
      = (b0 * 65536 + b1 * 256) ||| b2 := by rw [step1]
    _ = ((b0 * 256 + b1) <<< 8) ||| b2 := by rw [step2]
    _ = (b0 * 256 + b1) * 256 + b2 := step3
    _ = b0 * 65536 + b1 * 256 + b2 := by ring

set_option maxRecDepth 2048 in
set_option linter.constructorNameAsVariable false in
/-- Exact preimage count of GenerateOTP: the 2^24 equally likely 3-byte
inputs split over the residues mod 10^6, giving each code value v the
count of multiples-of-10^6 offsets that stay below 2^24. -/
lemma countPreimages_eq (v : Nat) (hv : v < 1000000) :
    countPreimages v = (16777215 - v) / 1000000 + 1 := by
  unfold countPreimages
  rw [show (16777215 - v) / 1000000 + 1
      = (Finset.range ((16777215 - v) / 1000000 + 1)).card from
      (Finset.card_range _).symm]
  refine Finset.card_bij'
    (fun t _ => (t.1.1 * 65536 + t.1.2 * 256 + t.2) / 1000000)
    (fun n _ => (((v + n * 1000000) / 65536, (v + n * 1000000) / 256 % 256),
      (v + n * 1000000) % 256)) ?_ ?_ ?_ ?_
  · intro t ht
    simp only [Finset.mem_filter, Finset.mem_product, Finset.mem_range] at ht
    obtain ⟨⟨⟨h0, h1⟩, h2⟩, heq⟩ := ht
    rw [otpCombined_eq t.1.1 h1 h2] at heq
    simp only [Finset.mem_range]
    omega
  · intro n hn
    simp only [Finset.mem_range] at hn
    simp only [Finset.mem_filter, Finset.mem_product, Finset.mem_range]
    have hrec2 : (v + n * 1000000) / 65536 * 65536
        + (v + n * 1000000) / 256 % 256 * 256 + (v + n * 1000000) % 256
        = v + n * 1000000 := by omega
    refine ⟨⟨⟨by omega, by omega⟩, by omega⟩, ?_⟩
    rw [otpCombined_eq _ (by omega) (by omega), hrec2]
    omega
  · intro t ht
    simp only [Finset.mem_filter, Finset.mem_product, Finset.mem_range] at ht
    obtain ⟨⟨b0, b1⟩, b2⟩ := t
    obtain ⟨⟨⟨h0, h1⟩, h2⟩, heq⟩ := ht
    dsimp only at h0 h1 h2 heq ⊢
    rw [otpCombined_eq b0 h1 h2] at heq
    have hXv : v + (b0 * 65536 + b1 * 256 + b2) / 1000000 * 1000000
        = b0 * 65536 + b1 * 256 + b2 := by omega
    simp only [hXv, Prod.mk.injEq]
    refine ⟨⟨?_, ?_⟩, ?_⟩ <;> omega
  · intro n hn
    simp only [Finset.mem_range] at hn
    dsimp only
    have hrec : (v + n * 1000000) / 65536 * 65536
        + (v + n * 1000000) / 256 % 256 * 256 + (v + n * 1000000) % 256
        = v + n * 1000000 := by omega
    rw [hrec]
    omega

/-- fmt.Sprintf "%06d" of a value below 10^6 yields exactly 6 chars. -/
lemma sprintf06_length {n : Nat} (hn : n < 1000000) :
    (sprintf06 n).length = 6 := by
  have hL : (Nat.digits 10 n).length ≤ 6 := by
    rcases Nat.eq_zero_or_pos n with h0 | hpos
    · subst h0; simp
    · have h1 := Nat.base_pow_length_digits_le 10 n (by norm_num) (by omega)
      by_contra hgt
      push_neg at hgt
      have h2 : (10 : ℕ) ^ 7 ≤ 10 ^ (Nat.digits 10 n).length :=
        Nat.pow_le_pow_right (by norm_num) (by omega)
      have h3 : (10000000 : ℕ) ≤ 10 * n := by
        calc (10000000 : ℕ) = 10 ^ 7 := by norm_num
        _ ≤ 10 ^ (Nat.digits 10 n).length := h2
        _ ≤ 10 * n := h1
      omega
  show (List.replicate (6 - (Nat.digits 10 n).length) '0' ++
    ((Nat.digits 10 n).reverse.map Nat.digitChar)).length = 6
  simp only [List.length_append, List.length_replicate, List.length_map,
    List.length_reverse]
  omega

/-- Every character sprintf06 produces is a decimal digit. -/
lemma sprintf06_all_digits (n : Nat) :
    (sprintf06 n).data.all Char.isDigit = true := by
  show (List.replicate (6 - (Nat.digits 10 n).length) '0' ++
    ((Nat.digits 10 n).reverse.map Nat.digitChar)).all Char.isDigit = true
  simp only [List.all_append, Bool.and_eq_true, List.all_eq_true]
  constructor
  · intro c hc
    rw [List.eq_of_mem_replicate hc]
    decide
  · intro c hc
    obtain ⟨d, hd, rfl⟩ := List.mem_map.mp hc
    have hd10 : d < 10 :=
      Nat.digits_lt_base (by norm_num) (List.mem_reverse.mp hd)
    interval_cases d <;> decide

/-- C8 counterexample: the distribution is not uniform — the code value
000000 has 17 three-byte preimages while 999999 has only 16, because
2^24 is not a multiple of 10^6. -/
theorem C8_counterexample : countPreimages 0 ≠ countPreimages 999999 := by
  rw [countPreimages_eq 0 (by norm_num), countPreimages_eq 999999 (by norm_num)]
  norm_num

/-- C8 amended: GenerateOTP always returns a string of exactly 6 decimal
digits (left-zero-padded), but the distribution is only nearly uniform:
values below 777216 = 2^24 mod 10^6 have 17 three-byte preimages and the
remaining values have 16. -/
theorem C8_six_digits_and_near_uniform :
    (∀ entropy, (generateOTP entropy).length = 6 ∧
      (generateOTP entropy).data.all Char.isDigit = true) ∧
    (∀ v, v < 1000000 →
      countPreimages v = if v < 777216 then 17 else 16) := by
  constructor
  · intro entropy
    match entropy with
    | none => exact ⟨rfl, rfl⟩
    | some (b0, b1, b2) =>
      exact ⟨sprintf06_length (Nat.mod_lt _ (by norm_num)),
        sprintf06_all_digits _⟩
  · intro v hv
    rw [countPreimages_eq v hv]
    by_cases h : v < 777216 <;> simp [h] <;> omega

/-- C8 amended witness. -/
theorem C8_witness :
    (generateOTP (some (1, 2, 3))).length = 6 ∧ countPreimages 0 = 17 :=
  ⟨(C8_six_digits_and_near_uniform.1 (some (1, 2, 3))).1,
    by rw [C8_six_digits_and_near_uniform.2 0 (by norm_num)]; norm_num⟩

end OTPAuth
